import Mathlib

set_option maxRecDepth 8192

namespace ConnectCli

/-! ### String and path helpers (Node.js semantics as exercised by lib/commands/init.js) -/

/-- The sixteen lowercase hexadecimal digit characters, in order. -/
def hexChars : List Char := "0123456789abcdef".data

/-- Hex digit character for a value below 16. -/
def hexDigit (n : Nat) : Char := hexChars.getD n '0'

/-- Two-character lowercase hex rendering of one byte, as produced by Node's
Buffer hex encoding. -/
def byteHex (b : Nat) : List Char := [hexDigit (b / 16), hexDigit (b % 16)]

/-- Hex characters of `n` bytes drawn from the entropy stream `rb` starting at
index `pos`; models `crypto.randomBytes(n).toString('hex')`, where `rb` is the
process's stream of cryptographically secure random bytes and `pos` counts the
bytes consumed so far. -/
def randomHexList (rb : Nat → Nat) (pos : Nat) : Nat → List Char
  | 0 => []
  | n+1 => byteHex (rb pos % 256) ++ randomHexList rb (pos+1) n

/-- String form of `randomHexList`. -/
def randomHexStr (rb : Nat → Nat) (pos n : Nat) : String := String.mk (randomHexList rb pos n)

/-- Split a character list on a separator character, keeping empty segments. -/
def splitOnChar (c : Char) : List Char → List (List Char)
  | [] => [[]]
  | x :: xs =>
    let r := splitOnChar c xs
    if x == c then [] :: r
    else
      match r with
      | [] => [[x]]
      | y :: ys => (x :: y) :: ys

/-- Path segments of a path string (split on the slash, empties kept). -/
def pathSegs (p : String) : List String := (splitOnChar '/' p.data).map String.mk

/-- Normalize path segments, dropping empty and dot segments and resolving
dot-dot segments against the accumulator, as Node's path normalization does. -/
def normSegs : List String → List String → List String
  | acc, [] => acc.reverse
  | acc, s :: rest =>
    if s == "" || s == "." then normSegs acc rest
    else if s == ".." then
      match acc with
      | [] => normSegs [s] rest
      | t :: acc2 => if t == ".." then normSegs (s :: t :: acc2) rest else normSegs acc2 rest
    else normSegs (s :: acc) rest

/-- Join segments with slashes. -/
def joinSegs : List String → String
  | [] => ""
  | [s] => s
  | s :: rest => s ++ "/" ++ joinSegs rest

/-- Whether a path string is absolute (begins with a slash). -/
def isAbs (p : String) : Bool :=
  match p.data with
  | '/' :: _ => true
  | _ => false

/-- Node-style path normalization over the inputs this program uses. -/
def normPath (p : String) : String :=
  let core := joinSegs (normSegs [] (pathSegs p))
  if isAbs p then "/" ++ core
  else if core == "" then "." else core

/-- Node's `path.join(a, b)`: concatenate with a slash and normalize. -/
def pathJoin (a b : String) : String := normPath (a ++ "/" ++ b)

/-- Node's `path.basename`: last nonempty slash-separated segment. -/
def basename (p : String) : String :=
  let segs := (pathSegs p).filter (fun s => s != "")
  match segs.getLast? with
  | some s => s
  | none => if isAbs p then "/" else p

/-- Remove the first occurrence of `pat` from a character list, as JavaScript's
`String.replace(pat, '')` does for a plain-string pattern. -/
def listReplaceFirst (pat : List Char) : List Char → List Char
  | [] => []
  | c :: rest =>
    if pat.isPrefixOf (c :: rest) then (c :: rest).drop pat.length
    else c :: listReplaceFirst pat rest

/-- JavaScript `s.replace(pat, '')` for a plain-string pattern. -/
def jsReplaceFirst (s pat : String) : String := String.mk (listReplaceFirst pat.data s.data)

/-- Models `file.replace(process.cwd() + '/', '')` from safeJSON's log lines. -/
def stripCwd (cwd file : String) : String := jsReplaceFirst file (cwd ++ "/")

/-! ### JSON documents -/

/-- In-memory JSON-like documents, as built for package.json and the two
configuration files. -/
inductive JValue where
  | str (s : String)
  | num (n : Nat)
  | bool (b : Bool)
  | arr (elems : List JValue)
  | obj (fields : List (String × JValue))

/-- Look a key up in an association list of JSON fields. -/
def lookupKV (key : String) : List (String × JValue) → Option JValue
  | [] => none
  | (k, v) :: rest => if k == key then some v else lookupKV key rest

/-- Field access on a JSON object. -/
def JValue.get? (v : JValue) (key : String) : Option JValue :=
  match v with
  | .obj fields => lookupKV key fields
  | _ => none

/-- String-valued field access. -/
def JValue.getStr? (v : JValue) (key : String) : Option String :=
  match v.get? key with
  | some (.str s) => some s
  | _ => none

/-- Number-valued field access. -/
def JValue.getNum? (v : JValue) (key : String) : Option Nat :=
  match v.get? key with
  | some (.num n) => some n
  | _ => none

/-- Boolean-valued field access. -/
def JValue.getBool? (v : JValue) (key : String) : Option Bool :=
  match v.get? key with
  | some (.bool b) => some b
  | _ => none

/-! ### File-system, log and process-state model -/

/-- Content stored at a path: a JSON document written by `fs.outputJSON`, text
written by `fs.outputFile`, a copy made by `fs.copy` (recorded with its source
path), or a directory made by `mkdirp`. -/
inductive Content where
  | json (v : JValue)
  | text (s : String)
  | copied (src : String)
  | dir

/-- The file system as a finite map from absolute paths to contents. A
directory also exists implicitly whenever some entry lies strictly below it,
mirroring that `fs.outputJSON` and `fs.outputFile` create parent directories. -/
abbrev FS := List (String × Content)

/-- `fs.exists` / `fs.existsSync`: the path has an entry or is an ancestor
directory of one. -/
def fsExists (fs : FS) (p : String) : Bool :=
  fs.any (fun e => e.1 == p || List.isPrefixOf (p ++ "/").data e.1.data)

/-- `fs.readdirSync(p).length > 0`: some entry lies strictly below `p`. -/
def fsNonEmptyDir (fs : FS) (p : String) : Bool :=
  fs.any (fun e => List.isPrefixOf (p ++ "/").data e.1.data)

/-- Write (or overwrite) the entry at a path. -/
def fsSet (fs : FS) (p : String) (c : Content) : FS :=
  fs.filter (fun e => e.1 != p) ++ [(p, c)]

/-- Read the entry at a path. -/
def fsGet (fs : FS) (p : String) : Option Content :=
  match fs.find? (fun e => e.1 == p) with
  | some e => some e.2
  | none => none

/-- Read a JSON document at a path. -/
def fsGetJson (fs : FS) (p : String) : Option JValue :=
  match fsGet fs p with
  | some (.json v) => some v
  | _ => none

/-- Console / cli.log output lines: blank line, header, error, or plain line. -/
inductive LogMsg where
  | br
  | header (s : String)
  | error (s : String)
  | info (s : String)
deriving DecidableEq, Repr

/-- Outcome of one pipeline step: completion callback called without error,
with an error, or `process.exit(code)` reached without calling the callback. -/
inductive Flow where
  | ok
  | err (e : String)
  | exit (code : Nat)
deriving DecidableEq, Repr

/-- Outcome of a whole `init` run: the process exited inside a step, or the
final `async.series` callback ran, having received `pipelineErr` from the
series. -/
inductive RunResult where
  | exited (code : Nat)
  | finished (pipelineErr : Option String)
deriving DecidableEq, Repr

/-- Observable process state threaded through the pipeline: current working
directory, file system, console output so far, number of random bytes drawn so
far, and the child-process command lines executed so far (in order). -/
structure S where
  cwd : String
  fs : FS
  log : List LogMsg
  rngPos : Nat
  execs : List String

/-- The run-scoped context record; `dir` is `context.data[0] || '.'`. -/
structure Context where
  dir : String

/-- Ambient behaviour of the run: the random-byte stream, the answer the user
gives to the inquirer confirmation, the results of `mkdirp`, of `git init`, of
the two openssl invocations, and of each fallible write / copy (keyed by the
absolute destination path). -/
structure Env where
  randomByte : Nat → Nat
  promptExisting : Bool
  mkdirpErr : Option String
  gitErr : Option String
  genrsa : Except String String
  pubout : Except String String
  writeErr : String → Option String
  copyErr : String → Option String
  dirnameVar : String

/-- Resolve a possibly relative path against the current working directory, as
the fs module does for relative arguments. -/
def resolve (cwd p : String) : String := if isAbs p then p else pathJoin cwd p

/-! ### The steps of init.js -/

/-- `safeJSON(file, obj)` (init.js lines 19-33): if the destination exists, log
and complete; otherwise write the document, log `Generated` unconditionally,
and pass any write error to the completion callback. -/
def safeJSONStep (env : Env) (file : String) (obj : JValue) (s : S) : S × Flow :=
  let abs := resolve s.cwd file
  if fsExists s.fs abs then
    ({ s with log := s.log ++ [.info (" * " ++ stripCwd s.cwd file ++ " already initialized.")] }, .ok)
  else
    match env.writeErr abs with
    | some e => ({ s with log := s.log ++ [.info (" * Generated " ++ stripCwd s.cwd file)] }, .err e)
    | none =>
      ({ s with fs := fsSet s.fs abs (.json obj),
                log := s.log ++ [.info (" * Generated " ++ stripCwd s.cwd file)] }, .ok)

/-- `safeCopy(from, to)` (init.js lines 40-54): same pattern for copying a
bundled template to `to` (a path resolved against the working directory at
execution time). -/
def safeCopyStep (env : Env) (src dst : String) (s : S) : S × Flow :=
  let abs := resolve s.cwd dst
  if fsExists s.fs abs then
    ({ s with log := s.log ++ [.info (" * " ++ dst ++ " already initialized.")] }, .ok)
  else
    match env.copyErr abs with
    | some e => ({ s with log := s.log ++ [.info (" * Generated " ++ dst)] }, .err e)
    | none =>
      ({ s with fs := fsSet s.fs abs (.copied src),
                log := s.log ++ [.info (" * Generated " ++ dst)] }, .ok)

/-- `directory(context)` (init.js lines 65-111). `dir` is recomputed from the
working directory at execution time. Existing nonempty directory: prompt; on
confirm chdir and complete, on decline log ABORTED and `process.exit()` (exit
code 0, the Node default). Existing empty directory: complete without chdir.
Absent: `mkdirp`, then chdir and complete. -/
def directoryStep (env : Env) (ctx : Context) (s : S) : S × Flow :=
  let dir := pathJoin s.cwd ctx.dir
  if fsExists s.fs dir then
    if fsNonEmptyDir s.fs dir then
      if env.promptExisting then
        ({ s with cwd := dir, log := s.log ++ [.br] }, .ok)
      else
        ({ s with log := s.log ++ [.br, .error "ABORTED"] }, .exit 0)
    else (s, .ok)
  else
    match env.mkdirpErr with
    | some e => (s, .err e)
    | none => ({ s with fs := fsSet s.fs dir .dir, cwd := dir }, .ok)

/-- `git(context)` (init.js lines 118-136). The existence check is on
`path.join(process.cwd(), context.dir)` itself (not on a `.git` directory),
with the working directory as of execution time; otherwise `git init` is
executed, the log line is printed, and the exec error (if any) is passed on. -/
def gitStep (env : Env) (ctx : Context) (s : S) : S × Flow :=
  let dir := pathJoin s.cwd ctx.dir
  if fsExists s.fs dir then
    ({ s with log := s.log ++ [.info " * Git repository already initialized."] }, .ok)
  else
    let s1 := { s with execs := s.execs ++ ["git init"],
                       log := s.log ++ [.info " * Initialized git repository"] }
    match env.gitErr with
    | some e => (s1, .err e)
    | none => (s1, .ok)

/-- The default manifest document built by `npm(context)` (init.js 143-162). -/
def npmManifest (ctx : Context) : JValue :=
  .obj [("name", .str (basename ctx.dir)),
        ("version", .str "0.0.0"),
        ("description", .str "Anvil Connect Deployment"),
        ("private", .bool true),
        ("main", .str "server.js"),
        ("scripts", .obj [("start", .str "node server.js")]),
        ("engines", .obj [("node", .str ">=0.12.0")]),
        ("dependencies", .obj [("anvil-connect", .str "0.1.42")])]

/-- The development configuration document (init.js 169-190); its two secrets
are drawn from the entropy stream at `pos` and `pos + 10`. -/
def devConfig (rb : Nat → Nat) (pos : Nat) : JValue :=
  .obj [("port", .num 3000),
        ("issuer", .str "http://localhost:3000"),
        ("client_registration", .str "scoped"),
        ("cookie_secret", .str (randomHexStr rb pos 10)),
        ("session_secret", .str (randomHexStr rb (pos + 10) 10)),
        ("providers", .obj
          [("password", .bool true),
           ("google", .obj
             [("client_id", .str "ID"),
              ("client_secret", .str "SECRET"),
              ("scope", .arr [.str "https://www.googleapis.com/auth/userinfo.profile",
                              .str "https://www.googleapis.com/auth/userinfo.email"])])])]

/-- The production configuration document (init.js 197-222); its two secrets
are drawn from the entropy stream at `pos` and `pos + 10`. -/
def prodConfig (rb : Nat → Nat) (pos : Nat) : JValue :=
  .obj [("port", .num 80),
        ("issuer", .str "https://HOST"),
        ("client_registration", .str "scoped"),
        ("cookie_secret", .str (randomHexStr rb pos 10)),
        ("session_secret", .str (randomHexStr rb (pos + 10) 10)),
        ("providers", .obj
          [("password", .bool true),
           ("google", .obj
             [("client_id", .str "ID"),
              ("client_secret", .str "SECRET"),
              ("scope", .arr [.str "https://www.googleapis.com/auth/userinfo.profile",
                              .str "https://www.googleapis.com/auth/userinfo.email"])]),
           ("redis", .obj
             [("url", .str "redis://HOST:PORT"),
              ("auth", .str "PASSWORD")])])]

/-- Source path of a bundled template: `path.join(__dirname, '..', 'files', name)`. -/
def tmplSrc (dirname name : String) : String :=
  pathJoin (pathJoin (pathJoin dirname "..") "files") name

/-- `keys(context)` (init.js 248-282). Existence is checked for the key
directory only; otherwise `openssl genrsa 2048` runs, its stdout is written to
the private-key file (parents created), then the public key is derived from
that file and written; each error is passed to the completion callback at
once. -/
def keysStep (env : Env) (dir : String) (s : S) : S × Flow :=
  let pvt := pathJoin dir "private.pem"
  let pub := pathJoin dir "public.pem"
  if fsExists s.fs dir then
    ({ s with log := s.log ++ [.info " * RSA key pair already initialized."] }, .ok)
  else
    let s1 := { s with execs := s.execs ++ ["openssl genrsa 2048"] }
    match env.genrsa with
    | .error e => (s1, .err e)
    | .ok pem =>
      match env.writeErr pvt with
      | some e => (s1, .err e)
      | none =>
        let s2 := { s1 with fs := fsSet s1.fs pvt (.text pem),
                            execs := s1.execs ++ ["openssl rsa -in " ++ pvt ++ " -pubout"] }
        match env.pubout with
        | .error e => (s2, .err e)
        | .ok pubPem =>
          match env.writeErr pub with
          | some e => (s2, .err e)
          | none =>
            ({ s2 with fs := fsSet s2.fs pub (.text pubPem),
                       log := s2.log ++ [.info " * Generated RSA keypair"] }, .ok)

/-- `async.series`: run steps in order, stopping at the first step whose
callback reports an error or that exits the process. -/
def runSeq : List (S → S × Flow) → S → S × Flow
  | [], s => (s, .ok)
  | f :: rest, s =>
    match f s with
    | (s1, .ok) => runSeq rest s1
    | (s1, r) => (s1, r)

/-- `files(context)` (init.js 229-241): an inner series of four safeCopy
steps, with relative destinations. -/
def filesStep (env : Env) (s : S) : S × Flow :=
  runSeq
    [safeCopyStep env (tmplSrc env.dirnameVar "server.js") "server.js",
     safeCopyStep env (tmplSrc env.dirnameVar "views") "views",
     safeCopyStep env (tmplSrc env.dirnameVar "public") "public",
     safeCopyStep env (tmplSrc env.dirnameVar "gitignore") ".gitignore"]
    s

/-- The final `async.series` callback (init.js 315-318): on process exit it
never runs; otherwise it ignores the error it received and prints the DONE
banner. -/
def finishRun (p : S × Flow) : S × RunResult :=
  match p with
  | (s, .exit c) => (s, .exited c)
  | (s, .ok) => ({ s with log := s.log ++ [.br, .header "DONE"] }, .finished none)
  | (s, .err e) => ({ s with log := s.log ++ [.br, .header "DONE"] }, .finished (some e))

/-- The `init` handler (init.js 289-319): print the banner, build the series
array — which computes the manifest/config/key destination paths from the
working directory as of invocation, and draws all four config secrets from the
entropy stream — then run the seven steps in order and run the final
callback. -/
def runInit (env : Env) (ctx : Context) (s0 : S) : S × RunResult :=
  let cwd0 := s0.cwd
  let pos := s0.rngPos
  let npmFile := pathJoin (pathJoin cwd0 ctx.dir) "package.json"
  let devFile := pathJoin (pathJoin (pathJoin cwd0 ctx.dir) "config") "development.json"
  let prodFile := pathJoin (pathJoin (pathJoin cwd0 ctx.dir) "config") "production.json"
  let keysDir := pathJoin (pathJoin (pathJoin cwd0 ctx.dir) "config") "keys"
  let s1 : S :=
    { s0 with rngPos := pos + 40,
              log := s0.log ++ [.br, .header "Initializing your new Anvil Connect instance.", .br] }
  finishRun (runSeq
    [directoryStep env ctx,
     gitStep env ctx,
     safeJSONStep env npmFile (npmManifest ctx),
     safeJSONStep env devFile (devConfig env.randomByte pos),
     safeJSONStep env prodFile (prodConfig env.randomByte (pos + 20)),
     filesStep env,
     keysStep env keysDir]
    s1)

/-! ### Concrete scenarios -/

/-- A sample entropy stream. -/
def rbA : Nat → Nat := fun i => (i * 37 + 11) % 256

/-- An all-success environment: the user confirms the prompt, every subprocess
and write succeeds. -/
def envOk : Env :=
  { randomByte := rbA,
    promptExisting := true,
    mkdirpErr := none,
    gitErr := none,
    genrsa := .ok "PRIVPEM",
    pubout := .ok "PUBPEM",
    writeErr := fun _ => none,
    copyErr := fun _ => none,
    dirnameVar := "/usr/lib/node_modules/connect-cli/lib/commands" }

/-- A fresh process in `/base` over an empty disk. -/
def s0 : S := { cwd := "/base", fs := [], log := [], rngPos := 0, execs := [] }

/-- Target directory argument `proj`. -/
def ctxProj : Context := { dir := "proj" }

/-- First full run: `init proj` from `/base` on an empty disk. -/
def run1 : S × RunResult := runInit envOk ctxProj s0

/-- A second all-success environment with a different entropy stream. -/
def envOk2 : Env := { envOk with randomByte := fun i => (i + 3) % 256 }

/-- The second invocation's start state: same disk, fresh process in `/base`. -/
def s2start : S := { cwd := "/base", fs := run1.1.fs, log := [], rngPos := 0, execs := [] }

/-- Second full run against the populated directory. -/
def run2 : S × RunResult := runInit envOk2 ctxProj s2start

/-- An environment in which `git init` fails. -/
def envGitFail : Env := { envOk with gitErr := some "git-failed" }

/-- Run in which the git step reports an error. -/
def runGitFail : S × RunResult := runInit envGitFail ctxProj s0

/-- Target directory argument `foo`. -/
def ctxFoo : Context := { dir := "foo" }

/-- A state in which the target `foo` exists as an empty directory. -/
def sEmptyFoo : S :=
  { cwd := "/base", fs := [("/base/foo", Content.dir)], log := [], rngPos := 0, execs := [] }

/-- Full run against an existing empty target directory `foo`. -/
def runFoo : S × RunResult := runInit envOk ctxFoo sEmptyFoo

/-- The default target directory argument, `.`. -/
def ctxDot : Context := { dir := "." }

/-- A state in which the working directory `/base` exists and is empty. -/
def sBaseDot : S :=
  { cwd := "/base", fs := [("/base", Content.dir)], log := [], rngPos := 0, execs := [] }

/-- Full run of `init` with the default target `.` in an existing empty
working directory. -/
def runDot : S × RunResult := runInit envOk ctxDot sBaseDot

/-- A state in which the target `proj` exists and is nonempty. -/
def sNonEmpty : S :=
  { cwd := "/base", fs := [("/base/proj", Content.dir), ("/base/proj/x.txt", Content.text "hi")],
    log := [], rngPos := 0, execs := [] }

/-- An environment in which the user declines the confirmation prompt. -/
def envDecline : Env := { envOk with promptExisting := false }

/-- Invocation from `/` on an empty disk, targeting `/tmp/proj`. -/
def ctxTmp : Context := { dir := "/tmp/proj" }

/-- A fresh process at the filesystem root over an empty disk. -/
def sRoot : S := { cwd := "/", fs := [], log := [], rngPos := 0, execs := [] }

/-- Full run of `init /tmp/proj` from `/` on an empty disk. -/
def runTmp : S × RunResult := runInit envOk ctxTmp sRoot

/-- A state whose disk already holds a JSON artifact, a copied template and a
key directory, used to exercise the already-initialized branches. -/
def sWit : S :=
  { cwd := "/base",
    fs := [("/base/a.json", Content.dir), ("/base/views", Content.dir), ("/base/k", Content.dir)],
    log := [], rngPos := 0, execs := [] }

/-- A step that immediately reports an error. -/
def stepErr : S → S × Flow := fun s => (s, .err "boom")

/-- An environment in which `openssl genrsa` fails. -/
def envGenFail : Env := { envOk with genrsa := .error "genrsa-failed" }

/-- An environment in which the public-key derivation fails. -/
def envPubFail : Env := { envOk with pubout := .error "pub-failed" }

/-- An environment in which writing `/base/a.json` fails. -/
def envWriteFail : Env :=
  { envOk with writeErr := fun p => if p == "/base/a.json" then some "EACCES" else none }

/-- A state in which the target `app` exists (implicitly, through a file below
it) and is nonempty. -/
def sNonEmptyHome : S :=
  { cwd := "/home", fs := [("/home/app/readme.txt", Content.text "x")],
    log := [], rngPos := 5, execs := [] }

/-- Target directory argument `app`. -/
def ctxApp : Context := { dir := "app" }

/-! ### Helper lemmas -/

theorem hexDigit_mem : ∀ m, m < 16 → hexDigit m ∈ hexChars := by decide

theorem randomHexList_length (rb : Nat → Nat) (pos n : Nat) :
    (randomHexList rb pos n).length = 2 * n := by
  induction n generalizing pos with
  | zero => rfl
  | succ k ih =>
    simp only [randomHexList, List.length_append, ih (pos + 1), byteHex, List.length_cons,
      List.length_nil]
    omega

theorem randomHexStr_length (rb : Nat → Nat) (pos : Nat) :
    (randomHexStr rb pos 10).length = 20 := by
  show (randomHexList rb pos 10).length = 20
  rw [randomHexList_length]

theorem randomHexList_hex (rb : Nat → Nat) (pos n : Nat) :
    (randomHexList rb pos n).all (fun c => hexChars.contains c) = true := by
  induction n generalizing pos with
  | zero => rfl
  | succ k ih =>
    have hb : rb pos % 256 < 256 := Nat.mod_lt _ (by norm_num)
    have h1 : rb pos % 256 / 16 < 16 := Nat.div_lt_of_lt_mul (by omega)
    have h2 : rb pos % 256 % 16 < 16 := Nat.mod_lt _ (by norm_num)
    simp only [randomHexList, List.all_append, Bool.and_eq_true]
    exact ⟨by simp [byteHex, hexDigit_mem _ h1, hexDigit_mem _ h2], ih (pos + 1)⟩

theorem finishRun_done (p : S × Flow) (r : Option String) :
    (finishRun p).2 = .finished r → LogMsg.header "DONE" ∈ (finishRun p).1.log := by
  obtain ⟨s, f⟩ := p
  cases f with
  | ok => intro _; simp [finishRun]
  | err e => intro _; simp [finishRun]
  | exit c => intro h; simp [finishRun] at h

/-! ### Claims -/

/-- C1: every artifact-producing primitive — safeJSON for the manifest and the
two configuration files, safeCopy for the templates, the key step for the RSA
key pair — performs no write and signals completion when its destination path
already exists, existence being the sole check; consequently a second full run
against the same populated directory overwrites no file and logs an
already-initialized message instead of a Generated message for every
artifact. -/
theorem C1_write_if_absent :
    (∀ (env : Env) (file : String) (obj : JValue) (s : S),
      fsExists s.fs (resolve s.cwd file) = true →
      safeJSONStep env file obj s =
        ({ s with log := s.log ++
            [.info (" * " ++ stripCwd s.cwd file ++ " already initialized.")] }, .ok)) ∧
    (∀ (env : Env) (src dst : String) (s : S),
      fsExists s.fs (resolve s.cwd dst) = true →
      safeCopyStep env src dst s =
        ({ s with log := s.log ++ [.info (" * " ++ dst ++ " already initialized.")] }, .ok)) ∧
    (∀ (env : Env) (dir : String) (s : S),
      fsExists s.fs dir = true →
      keysStep env dir s =
        ({ s with log := s.log ++ [.info " * RSA key pair already initialized."] }, .ok)) ∧
    run1.2 = .finished none ∧
    run2.2 = .finished none ∧
    run2.1.fs = run1.1.fs ∧
    run2.1.log =
      [.br, .header "Initializing your new Anvil Connect instance.", .br, .br,
       .info " * Initialized git repository",
       .info " * package.json already initialized.",
       .info " * config/development.json already initialized.",
       .info " * config/production.json already initialized.",
       .info " * server.js already initialized.",
       .info " * views already initialized.",
       .info " * public already initialized.",
       .info " * .gitignore already initialized.",
       .info " * RSA key pair already initialized.",
       .br, .header "DONE"] := by
  refine ⟨?_, ?_, ?_, rfl, rfl, rfl, rfl⟩
  · intro env file obj s h
    simp [safeJSONStep, h]
  · intro env src dst s h
    simp [safeCopyStep, h]
  · intro env dir s h
    simp [keysStep, h]

/-- C1 witness: the three already-initialized branches at concrete inputs. -/
theorem C1_write_if_absent_witness :
    safeJSONStep envOk "/base/a.json" (JValue.num 1) sWit =
      ({ sWit with log := sWit.log ++
          [.info (" * " ++ stripCwd sWit.cwd "/base/a.json" ++ " already initialized.")] }, .ok) ∧
    safeCopyStep envOk "/tpl/views" "views" sWit =
      ({ sWit with log := sWit.log ++ [.info (" * " ++ "views" ++ " already initialized.")] }, .ok) ∧
    keysStep envOk "/base/k" sWit =
      ({ sWit with log := sWit.log ++ [.info " * RSA key pair already initialized."] }, .ok) :=
  ⟨C1_write_if_absent.1 envOk "/base/a.json" (JValue.num 1) sWit rfl,
   C1_write_if_absent.2.1 envOk "/tpl/views" "views" sWit rfl,
   C1_write_if_absent.2.2.1 envOk "/base/k" sWit rfl⟩

/-- C2 counterexample: when the git step reports an error, the run halts but
the final callback still prints the DONE banner and prints nothing about the
error — the claim that the banner appears only when every step succeeded, and
that the error is surfaced, is false on this input. -/
theorem C2_counterexample :
    runGitFail =
      ({ cwd := "/base/proj",
         fs := [("/base/proj", Content.dir)],
         log := [.br, .header "Initializing your new Anvil Connect instance.", .br,
                 .info " * Initialized git repository", .br, .header "DONE"],
         rngPos := 40, execs := ["git init"] }, .finished (some "git-failed")) ∧
    LogMsg.header "DONE" ∈ runGitFail.1.log ∧
    (runGitFail.1.log.all (fun m => match m with | .error _ => false | _ => true)) = true := by
  refine ⟨rfl, by decide, rfl⟩

/-- C2 (amended): when a step's completion callback reports an error the
series attempts no later step; however, the final callback ignores the error
it receives, so the DONE banner is printed on every run that is not terminated
at the directory prompt — including failed ones — and the error is not
surfaced. -/
theorem C2_error_halts_but_banner_always :
    (∀ (f : S → S × Flow) (rest : List (S → S × Flow)) (s s1 : S) (e : String),
      f s = (s1, .err e) → runSeq (f :: rest) s = (s1, .err e)) ∧
    (∀ (env : Env) (ctx : Context) (st : S) (r : Option String),
      (runInit env ctx st).2 = .finished r →
      LogMsg.header "DONE" ∈ (runInit env ctx st).1.log) := by
  constructor
  · intro f rest s s1 e h
    simp [runSeq, h]
  · intro env ctx st r h
    exact finishRun_done _ r h

/-- C2 witness: a failing first step halts the series, and the all-success run
prints the DONE banner. -/
theorem C2_error_halts_but_banner_always_witness :
    runSeq [stepErr] s0 = (s0, .err "boom") ∧
    LogMsg.header "DONE" ∈ run1.1.log :=
  ⟨C2_error_halts_but_banner_always.1 stepErr [] s0 s0 "boom" rfl,
   C2_error_halts_but_banner_always.2 envOk ctxProj s0 none rfl⟩

/-- C3 counterexample: with target `foo` existing and empty, the directory
step signals completion while the working directory stays `/base`, not the
target `/base/foo` — so not every proceeding branch makes the target the
active working directory. -/
theorem C3_counterexample :
    directoryStep envOk ctxFoo sEmptyFoo = (sEmptyFoo, .ok) ∧
    pathJoin sEmptyFoo.cwd ctxFoo.dir = "/base/foo" ∧
    (sEmptyFoo.cwd == "/base/foo") = false := by
  refine ⟨rfl, rfl, rfl⟩

/-- C3 (amended): the target becomes the working directory before completion
in the created branch and in the confirmed nonempty branch; in the
exists-and-empty branch the step completes without changing the working
directory. -/
theorem C3_chdir_branches :
    ∀ (env : Env) (ctx : Context) (s : S),
      (fsExists s.fs (pathJoin s.cwd ctx.dir) = false → env.mkdirpErr = none →
        directoryStep env ctx s =
          ({ s with fs := fsSet s.fs (pathJoin s.cwd ctx.dir) .dir,
                    cwd := pathJoin s.cwd ctx.dir }, .ok)) ∧
      (fsExists s.fs (pathJoin s.cwd ctx.dir) = true →
        fsNonEmptyDir s.fs (pathJoin s.cwd ctx.dir) = true →
        env.promptExisting = true →
        directoryStep env ctx s =
          ({ s with cwd := pathJoin s.cwd ctx.dir, log := s.log ++ [.br] }, .ok)) ∧
      (fsExists s.fs (pathJoin s.cwd ctx.dir) = true →
        fsNonEmptyDir s.fs (pathJoin s.cwd ctx.dir) = false →
        directoryStep env ctx s = (s, .ok)) := by
  intro env ctx s
  refine ⟨?_, ?_, ?_⟩
  · intro h1 h2
    simp [directoryStep, h1, h2]
  · intro h1 h2 h3
    simp [directoryStep, h1, h2, h3]
  · intro h1 h2
    simp [directoryStep, h1, h2]

/-- C3 witness: the three branches at concrete inputs. -/
theorem C3_chdir_branches_witness :
    directoryStep envOk ctxProj s0 =
      ({ s0 with fs := fsSet s0.fs (pathJoin s0.cwd ctxProj.dir) .dir,
                 cwd := pathJoin s0.cwd ctxProj.dir }, .ok) ∧
    directoryStep envOk ctxProj sNonEmpty =
      ({ sNonEmpty with cwd := pathJoin sNonEmpty.cwd ctxProj.dir,
                        log := sNonEmpty.log ++ [.br] }, .ok) ∧
    directoryStep envOk ctxDot sBaseDot = (sBaseDot, .ok) :=
  ⟨(C3_chdir_branches envOk ctxProj s0).1 rfl rfl,
   (C3_chdir_branches envOk ctxProj sNonEmpty).2.1 rfl rfl rfl,
   (C3_chdir_branches envOk ctxDot sBaseDot).2.2 rfl rfl⟩

/-- C4: the VCS step checks existence of `path.join(cwd, context.dir)` — the
project directory, not the VCS metadata directory. At the failing input
(target `.` in an existing empty working directory, no `.git` anywhere) it
logs `Git repository already initialized.` and never invokes `git init`, and
the full run ends with no `git init` among the executed commands and still no
`.git` — contradicting the claimed iff. -/
theorem C4_git_checks_wrong_path :
    gitStep envOk ctxDot sBaseDot =
      ({ sBaseDot with log := sBaseDot.log ++
          [.info " * Git repository already initialized."] }, .ok) ∧
    fsExists sBaseDot.fs (pathJoin (pathJoin sBaseDot.cwd ctxDot.dir) ".git") = false ∧
    runDot.1.execs.contains "git init" = false ∧
    fsExists runDot.1.fs (pathJoin "/base" ".git") = false := by
  refine ⟨rfl, rfl, rfl, rfl⟩

/-- C5 counterexample: declining the prompt terminates the run with exit code
0 — `process.exit()` with no argument — not with a non-zero code; the ABORTED
error is logged, the DONE banner is not, and no later step ran. -/
theorem C5_counterexample :
    runInit envDecline ctxProj sNonEmpty =
      ({ sNonEmpty with
          rngPos := 40,
          log := [.br, .header "Initializing your new Anvil Connect instance.", .br,
                  .br, .error "ABORTED"] }, .exited 0) := by
  rfl

/-- C5 (amended): when the target exists nonempty and the user declines, the
directory step logs ABORTED and exits the process with the default exit code
0, and the whole run terminates there: no later step executes, the file
system is untouched, and no DONE banner is printed. -/
theorem C5_decline_aborts :
    ∀ (env : Env) (ctx : Context) (s : S),
      fsExists s.fs (pathJoin s.cwd ctx.dir) = true →
      fsNonEmptyDir s.fs (pathJoin s.cwd ctx.dir) = true →
      env.promptExisting = false →
      directoryStep env ctx s =
        ({ s with log := s.log ++ [.br, .error "ABORTED"] }, .exit 0) ∧
      runInit env ctx s =
        ({ s with
            rngPos := s.rngPos + 40,
            log := s.log ++ [.br, .header "Initializing your new Anvil Connect instance.", .br,
                             .br, .error "ABORTED"] }, .exited 0) := by
  intro env ctx s h1 h2 h3
  constructor
  · simp [directoryStep, h1, h2, h3]
  · simp [runInit, runSeq, directoryStep, finishRun, h1, h2, h3]

/-- C5 witness: decline at a concrete nonempty target. -/
theorem C5_decline_aborts_witness :
    directoryStep envDecline ctxApp sNonEmptyHome =
      ({ sNonEmptyHome with log := sNonEmptyHome.log ++ [.br, .error "ABORTED"] }, .exit 0) ∧
    runInit envDecline ctxApp sNonEmptyHome =
      ({ sNonEmptyHome with
          rngPos := sNonEmptyHome.rngPos + 40,
          log := sNonEmptyHome.log ++
            [.br, .header "Initializing your new Anvil Connect instance.", .br,
             .br, .error "ABORTED"] }, .exited 0) :=
  C5_decline_aborts envDecline ctxApp sNonEmptyHome rfl rfl rfl

/-- C6: each configuration document holds two secrets, each the 20-character
lowercase hex encoding of 10 bytes drawn from the run's entropy stream; the
four draws occupy the pairwise disjoint stream segments pos..pos+9 and
pos+10..pos+19 (development) and pos+20..pos+29 and pos+30..pos+39
(production), where pos is the stream position at handler invocation, so the
secrets are fresh per run and independent per document; in the concrete first
run the two documents written carry exactly these secrets and all four are
pairwise distinct. -/
theorem C6_secrets :
    (∀ (rb : Nat → Nat) (pos : Nat),
      (devConfig rb pos).getStr? "cookie_secret" = some (randomHexStr rb pos 10) ∧
      (devConfig rb pos).getStr? "session_secret" = some (randomHexStr rb (pos + 10) 10) ∧
      (prodConfig rb (pos + 20)).getStr? "cookie_secret" = some (randomHexStr rb (pos + 20) 10) ∧
      (prodConfig rb (pos + 20)).getStr? "session_secret" = some (randomHexStr rb (pos + 30) 10)) ∧
    (∀ (rb : Nat → Nat) (pos : Nat), (randomHexStr rb pos 10).length = 20) ∧
    (∀ (rb : Nat → Nat) (pos n : Nat),
      (randomHexList rb pos n).all (fun c => hexChars.contains c) = true) ∧
    fsGetJson run1.1.fs "/base/proj/config/development.json" = some (devConfig rbA 0) ∧
    fsGetJson run1.1.fs "/base/proj/config/production.json" = some (prodConfig rbA 20) ∧
    (randomHexStr rbA 0 10 == randomHexStr rbA 10 10) = false ∧
    (randomHexStr rbA 0 10 == randomHexStr rbA 20 10) = false ∧
    (randomHexStr rbA 0 10 == randomHexStr rbA 30 10) = false ∧
    (randomHexStr rbA 10 10 == randomHexStr rbA 20 10) = false ∧
    (randomHexStr rbA 10 10 == randomHexStr rbA 30 10) = false ∧
    (randomHexStr rbA 20 10 == randomHexStr rbA 30 10) = false := by
  refine ⟨fun rb pos => ⟨rfl, rfl, rfl, rfl⟩, randomHexStr_length, randomHexList_hex,
    rfl, rfl, by decide, by decide, by decide, by decide, by decide, by decide⟩

/-- C7: the key step checks only the key directory's existence and no-ops when
it exists; otherwise it executes `openssl genrsa 2048` first, writes its
stdout to the private-key file, then derives the public key from that file and
writes it; the error of either child process (or write) makes the step report
the error at once, so the series attempts nothing further. -/
theorem C7_keys_step :
    ∀ (env : Env) (dir : String) (s : S),
      (fsExists s.fs dir = true →
        keysStep env dir s =
          ({ s with log := s.log ++ [.info " * RSA key pair already initialized."] }, .ok)) ∧
      (fsExists s.fs dir = false →
        (∀ e, env.genrsa = .error e →
          keysStep env dir s =
            ({ s with execs := s.execs ++ ["openssl genrsa 2048"] }, .err e)) ∧
        (∀ pem e, env.genrsa = .ok pem →
          env.writeErr (pathJoin dir "private.pem") = none →
          env.pubout = .error e →
          keysStep env dir s =
            ({ s with fs := fsSet s.fs (pathJoin dir "private.pem") (.text pem),
                      execs := s.execs ++ ["openssl genrsa 2048",
                        "openssl rsa -in " ++ pathJoin dir "private.pem" ++ " -pubout"] },
             .err e)) ∧
        (∀ pem pubPem, env.genrsa = .ok pem → env.pubout = .ok pubPem →
          env.writeErr (pathJoin dir "private.pem") = none →
          env.writeErr (pathJoin dir "public.pem") = none →
          keysStep env dir s =
            ({ s with fs := fsSet (fsSet s.fs (pathJoin dir "private.pem") (.text pem))
                              (pathJoin dir "public.pem") (.text pubPem),
                      execs := s.execs ++ ["openssl genrsa 2048",
                        "openssl rsa -in " ++ pathJoin dir "private.pem" ++ " -pubout"],
                      log := s.log ++ [.info " * Generated RSA keypair"] }, .ok))) := by
  intro env dir s
  refine ⟨?_, ?_⟩
  · intro h
    simp [keysStep, h]
  · intro h
    refine ⟨?_, ?_, ?_⟩
    · intro e hg
      simp [keysStep, h, hg]
    · intro pem e hg hw hp
      simp [keysStep, h, hg, hw, hp]
    · intro pem pubPem hg hp hw1 hw2
      simp [keysStep, h, hg, hp, hw1, hw2]

/-- C7 witness: the four cases of the key step at concrete inputs. -/
theorem C7_keys_step_witness :
    keysStep envOk "/base/proj/config/keys" run1.1 =
      ({ run1.1 with log := run1.1.log ++
          [.info " * RSA key pair already initialized."] }, .ok) ∧
    keysStep envGenFail "/k" s0 =
      ({ s0 with execs := s0.execs ++ ["openssl genrsa 2048"] }, .err "genrsa-failed") ∧
    keysStep envPubFail "/k" s0 =
      ({ s0 with fs := fsSet s0.fs (pathJoin "/k" "private.pem") (.text "PRIVPEM"),
                 execs := s0.execs ++ ["openssl genrsa 2048",
                   "openssl rsa -in " ++ pathJoin "/k" "private.pem" ++ " -pubout"] },
       .err "pub-failed") ∧
    keysStep envOk "/k" s0 =
      ({ s0 with fs := fsSet (fsSet s0.fs (pathJoin "/k" "private.pem") (.text "PRIVPEM"))
                         (pathJoin "/k" "public.pem") (.text "PUBPEM"),
                 execs := s0.execs ++ ["openssl genrsa 2048",
                   "openssl rsa -in " ++ pathJoin "/k" "private.pem" ++ " -pubout"],
                 log := s0.log ++ [.info " * Generated RSA keypair"] }, .ok) :=
  ⟨(C7_keys_step envOk "/base/proj/config/keys" run1.1).1 rfl,
   ((C7_keys_step envGenFail "/k" s0).2 rfl).1 "genrsa-failed" rfl,
   ((C7_keys_step envPubFail "/k" s0).2 rfl).2.1 "PRIVPEM" "pub-failed" rfl rfl rfl,
   ((C7_keys_step envOk "/k" s0).2 rfl).2.2 "PRIVPEM" "PUBPEM" rfl rfl rfl rfl⟩

/-- C8: the generated manifest's name is the base name of the target directory
path, with fixed version, description, private flag, entry point, start
script, engine constraint, and exactly one pinned runtime dependency; the run
`init /tmp/proj` from the root writes /tmp/proj/package.json with name
`proj`. -/
theorem C8_manifest :
    (∀ ctx : Context,
      (npmManifest ctx).getStr? "name" = some (basename ctx.dir) ∧
      (npmManifest ctx).getStr? "version" = some "0.0.0" ∧
      (npmManifest ctx).getStr? "description" = some "Anvil Connect Deployment" ∧
      (npmManifest ctx).getBool? "private" = some true ∧
      (npmManifest ctx).getStr? "main" = some "server.js" ∧
      (npmManifest ctx).get? "scripts" = some (.obj [("start", .str "node server.js")]) ∧
      (npmManifest ctx).get? "engines" = some (.obj [("node", .str ">=0.12.0")]) ∧
      (npmManifest ctx).get? "dependencies" = some (.obj [("anvil-connect", .str "0.1.42")])) ∧
    basename "/tmp/proj" = "proj" ∧
    runTmp.2 = .finished none ∧
    fsGetJson runTmp.1.fs "/tmp/proj/package.json" = some (npmManifest ctxTmp) ∧
    (npmManifest ctxTmp).getStr? "name" = some "proj" :=
  ⟨fun _ => ⟨rfl, rfl, rfl, rfl, rfl, rfl, rfl, rfl⟩, rfl, rfl, rfl, rfl⟩

/-- C9 counterexample: with the default target `.` in an existing empty
working directory, the directory step never changes the working directory,
yet the manifest family and the template family both land in the same project
directory `/base` — the claim that they coincide only in the branches where
the directory step changes the working directory is false on this input. -/
theorem C9_counterexample :
    runDot.1.cwd = "/base" ∧
    pathJoin "/base" ctxDot.dir = "/base" ∧
    fsGetJson runDot.1.fs "/base/package.json" = some (npmManifest ctxDot) ∧
    fsGet runDot.1.fs "/base/server.js" =
      some (.copied (tmplSrc envOk.dirnameVar "server.js")) ∧
    runDot.2 = .finished none := by
  refine ⟨rfl, rfl, rfl, rfl, rfl⟩

/-- C9 (amended): manifest, configuration, and key destinations are absolute
paths computed from the invocation-time working directory, while template
artifacts are copied to relative destinations resolved against the working
directory at copy time; the two families land in the same project directory
exactly when the copy-time working directory equals the computed project
directory — which holds in the branches where the directory step changes the
working directory, and also without any change when the target resolves to
the invocation working directory itself (as with the default target `.`). -/
theorem C9_path_families :
    (∀ (env : Env) (src dst : String) (s : S),
      fsExists s.fs (resolve s.cwd dst) = false →
      env.copyErr (resolve s.cwd dst) = none →
      safeCopyStep env src dst s =
        ({ s with fs := fsSet s.fs (resolve s.cwd dst) (.copied src),
                  log := s.log ++ [.info (" * Generated " ++ dst)] }, .ok)) ∧
    (∀ (cwd p : String), isAbs p = true → resolve cwd p = p) ∧
    runFoo.1.cwd = "/base" ∧
    fsGetJson runFoo.1.fs "/base/foo/package.json" = some (npmManifest ctxFoo) ∧
    fsGet runFoo.1.fs "/base/server.js" =
      some (.copied (tmplSrc envOk.dirnameVar "server.js")) ∧
    fsGet runFoo.1.fs "/base/foo/server.js" = none ∧
    run1.1.cwd = "/base/proj" ∧
    fsGetJson run1.1.fs "/base/proj/package.json" = some (npmManifest ctxProj) ∧
    fsGet run1.1.fs "/base/proj/server.js" =
      some (.copied (tmplSrc envOk.dirnameVar "server.js")) ∧
    fsGet run1.1.fs "/base/proj/proj/package.json" = none := by
  refine ⟨?_, ?_, rfl, rfl, rfl, rfl, rfl, rfl, rfl, rfl⟩
  · intro env src dst s h1 h2
    simp [safeCopyStep, h1, h2]
  · intro cwd p h
    simp [resolve, h]

/-- C9 witness: a template copy resolving against the current working
directory, and an absolute destination passing through resolution
unchanged. -/
theorem C9_path_families_witness :
    safeCopyStep envOk "/tpl/server.js" "server.js" s0 =
      ({ s0 with fs := fsSet s0.fs (resolve s0.cwd "server.js") (.copied "/tpl/server.js"),
                 log := s0.log ++ [.info (" * Generated " ++ "server.js")] }, .ok) ∧
    resolve "/anywhere" "/tmp/proj/package.json" = "/tmp/proj/package.json" :=
  ⟨C9_path_families.1 envOk "/tpl/server.js" "server.js" s0 rfl rfl,
   C9_path_families.2.1 "/anywhere" "/tmp/proj/package.json" rfl⟩

/-- C10: in the write-if-absent JSON primitive, when the destination is absent
the Generated message is logged unconditionally after the write attempt, even
when the write fails; the error is still passed to the completion callback and
the file is not written. -/
theorem C10_generated_despite_error :
    ∀ (env : Env) (file : String) (obj : JValue) (s : S) (e : String),
      fsExists s.fs (resolve s.cwd file) = false →
      env.writeErr (resolve s.cwd file) = some e →
      safeJSONStep env file obj s =
        ({ s with log := s.log ++ [.info (" * Generated " ++ stripCwd s.cwd file)] }, .err e) := by
  intro env file obj s e h1 h2
  simp [safeJSONStep, h1, h2]

/-- C10 witness: a concrete failing write still logs Generated and reports the
error. -/
theorem C10_generated_despite_error_witness :
    safeJSONStep envWriteFail "/base/a.json" (JValue.num 1) s0 =
      ({ s0 with log := s0.log ++ [.info (" * Generated " ++ stripCwd s0.cwd "/base/a.json")] },
       .err "EACCES") :=
  C10_generated_despite_error envWriteFail "/base/a.json" (JValue.num 1) s0 "EACCES" rfl rfl

end ConnectCli
